import Mathlib

/-!
# Verification of `sky/engine/core/script/dart_init.cc`

A shallow embedding of the Dart VM bootstrap and isolate-lifecycle code of
the engine repository, together with theorems settling the specification's
claims about it.  Each C++ function that a claim mentions is translated to
an executable Lean definition; external collaborators (file system, dynamic
loader, the VM itself) are modelled as explicit environments of pure
functions, and fatal `FTL_CHECK` / `CHECK` conditions become `Except.error`
or a dedicated `fatal` constructor.
-/

namespace DartInit

/-! ## Static flag tables (`dart_init.cc`, lines 84-128) -/

/-- `kDartProfilingArgs`: the profiling defaults.  The extra
`--no-profiler` entry is compiled in exactly on iOS/macOS
(`WTF_OS_IOS || WTF_OS_MACOSX`), so the table is parameterised by that
build predicate. -/
def kDartProfilingArgs (isIOSOrMacOS : Bool) : List String :=
  ["--profile_period=1000"] ++ (if isIOSOrMacOS then ["--no-profiler"] else [])

/-- `kDartMirrorsArgs`: the mirrors-disabling directive. -/
def kDartMirrorsArgs : List String :=
  ["--enable_mirrors=false"]

/-- `kDartPrecompilationArgs`. -/
def kDartPrecompilationArgs : List String :=
  ["--precompilation"]

/-- `kDartBackgroundCompilationArgs`. -/
def kDartBackgroundCompilationArgs : List String :=
  ["--background_compilation"]

/-- `kDartCheckedModeArgs`. -/
def kDartCheckedModeArgs : List String :=
  ["--enable_asserts",
   "--enable_type_checks",
   "--error_on_bad_type",
   "--error_on_bad_override"]

/-- `kDartStartPausedArgs`. -/
def kDartStartPausedArgs : List String :=
  ["--pause_isolates_on_start"]

/-- `kDartTraceStartupArgs`. -/
def kDartTraceStartupArgs : List String :=
  ["--timeline_streams=Compiler,Dart,Embedder,GC",
   "--timeline_recorder=endless"]

/-- The `kFileUriPrefix` constant (`"file://"`) of `dart_init.cc`
(renamed here for lexical reasons only). -/
def kFileUriScheme : String := "file://"

/-! ## Host settings (`sky_settings.h`, read through `SkySettings::Get()`)

Only the fields `dart_init.cc` reads are modelled. -/

structure SkySettings where
  enable_dart_checked_mode : Bool
  start_paused : Bool
  trace_startup : Bool
  enable_observatory : Bool
  aot_snapshot_path : String
  deriving Repr, DecidableEq

/-! ## Flag composition (`ShouldEnableCheckedMode` and `InitDartVM`,
lines 511-581) -/

/-- `ShouldEnableCheckedMode` (lines 511-523).  `IsRunningPrecompiledCode()`
is the derived execution mode, passed as a boolean; `ENABLE(DART_STRICT)`
is the build-time strict flag, likewise a parameter. -/
def ShouldEnableCheckedMode (precompiled strict : Bool)
    (settings : SkySettings) : Bool :=
  if precompiled then
    false
  else if strict then
    true
  else
    settings.enable_dart_checked_mode

/-- A character `std::istream_iterator<std::string>` treats as whitespace
(`isspace` in the default locale). -/
def isCppSpace (c : Char) : Bool :=
  c = ' ' || c = '\t' || c = '\n' || c = '\r' ||
  c = Char.ofNat 11 || c = Char.ofNat 12

/-- Splitting a flags string on whitespace the way the
`std::istream_iterator<std::string>` loop in `InitDartVM` does: maximal
non-space runs, empty tokens skipped. -/
def splitOnWhitespace (s : String) : List String :=
  (s.split isCppSpace).filter (fun t => t ≠ "")

/-- The `dart_flags` vector of `InitDartVM` (lines 566-577): when the
`dart-flags` command-line switch is present its value is split on
whitespace, otherwise the vector stays empty. -/
def dartFlagsOf (dartFlagsSwitch : Option String) : List String :=
  match dartFlagsSwitch with
  | none => []
  | some s => splitOnWhitespace s

/-- The `args` vector `InitDartVM` hands to `Dart_SetVMFlags`
(lines 541-581), built by the same sequence of appends as the source. -/
def initDartVMArgs (isIOSOrMacOS precompiled strict : Bool)
    (settings : SkySettings) (dartFlagsSwitch : Option String) : List String :=
  let args : List String := []
  let args := args ++ ["--ignore-unrecognized-flags"]
  let args := args ++ kDartProfilingArgs isIOSOrMacOS
  let args := args ++ kDartMirrorsArgs
  let args := args ++ kDartBackgroundCompilationArgs
  let args := if precompiled then args ++ kDartPrecompilationArgs else args
  let args := if ShouldEnableCheckedMode precompiled strict settings then
      args ++ kDartCheckedModeArgs
    else
      args
  let args := if settings.start_paused then args ++ kDartStartPausedArgs else args
  let args := if settings.trace_startup then args ++ kDartTraceStartupArgs else args
  args ++ dartFlagsOf dartFlagsSwitch

/-! ## Stream capture controller (`ServiceStreamListenCallback` and
`ServiceStreamCancelCallback`, lines 301-321)

The process-wide capture switches toggled through
`dart::bin::SetCaptureStdout` / `SetCaptureStderr` are made explicit as a
two-field state record. -/

def kStdoutStreamId : String := "Stdout"

def kStderrStreamId : String := "Stderr"

structure StreamCaptureState where
  captureStdout : Bool
  captureStderr : Bool
  deriving Repr, DecidableEq

/-- `ServiceStreamListenCallback` (lines 304-313): returns the C++
function's boolean result paired with the updated capture state. -/
def ServiceStreamListenCallback (st : StreamCaptureState)
    (stream_id : String) : Bool × StreamCaptureState :=
  if stream_id = kStdoutStreamId then
    (true, { st with captureStdout := true })
  else if stream_id = kStderrStreamId then
    (true, { st with captureStderr := true })
  else
    (false, st)

/-- `ServiceStreamCancelCallback` (lines 315-321). -/
def ServiceStreamCancelCallback (st : StreamCaptureState)
    (stream_id : String) : StreamCaptureState :=
  if stream_id = kStdoutStreamId then
    { st with captureStdout := false }
  else if stream_id = kStderrStreamId then
    { st with captureStderr := false }
  else
    st

/-! ## File-modification check (`DartFileModifiedCallback`, lines 140-159) -/

/-- `base::StartsWithASCII(str, search, true)` and
`base::StartsWith(str, search, base::CompareCase::SENSITIVE)`: a
case-sensitive prefix test on the characters of the strings. -/
def StartsWithASCII (str search : String) : Bool :=
  search.data.isPrefixOf str.data

/-- The file system as seen by `base::GetFileInfo`: a path either stats to
a last-modified time (milliseconds since the epoch, matching the
`base::Time` value at the precision this code manipulates) or fails. -/
structure FileSystemEnv where
  getFileInfo : String → Option Int

/-- `DartFileModifiedCallback` (lines 140-159).  The source returns `true`
("assume modified") early when the URL does not start with `"file:"`
(case-sensitive `StartsWithASCII`) and when `base::GetFileInfo` fails;
otherwise it strips the leading `"file:"` (the first occurrence, which the
guard places at offset 0), reconstructs `since_ms` as a `base::Time` via a
seconds/milliseconds split (`kMillisecondsPerSecond = 1000`, C++ integer
division truncating toward zero, hence `Int.tdiv`), and compares. -/
def DartFileModifiedCallback (env : FileSystemEnv) (source_url : String)
    (since_ms : Int) : Bool :=
  if StartsWithASCII source_url "file:" then
    match env.getFileInfo (source_url.drop 5) with
    | none => true
    | some last_modified =>
        let since_seconds := Int.tdiv since_ms 1000
        let since_milliseconds := since_ms - since_seconds * 1000
        let since_time := since_seconds * 1000 + since_milliseconds
        decide (since_time < last_modified)
  else
    true

/-! ## One-shot hook registration (`SetServiceIsolateHook` and
`SetRegisterNativeServiceProtocolExtensionHook`, lines 500-509), over the
file-scope globals of lines 130-133. -/

/-- A fatal `FTL_CHECK`/`CHECK` condition: continue only when the checked
condition holds, otherwise abort the process (modelled as `Except.error`). -/
def ftlCheck (cond : Bool) (msg : String) : Except String Unit :=
  if cond then Except.ok () else Except.error msg

/-- A hook function pointer, abstracted to a token; `none` is the null
pointer. -/
abbrev Hook := Option Nat

/-- The file-scope globals `g_service_isolate_initialized`,
`g_service_isolate_hook` and
`g_register_native_service_protocol_extensions_hook` (lines 130-133). -/
structure DartInitGlobals where
  service_isolate_initialized : Bool
  service_isolate_hook : Hook
  register_native_service_protocol_extensions_hook : Hook
  deriving Repr, DecidableEq

/-- `SetServiceIsolateHook` (lines 500-503). -/
def SetServiceIsolateHook (g : DartInitGlobals) (hook : Hook) :
    Except String DartInitGlobals := do
  ftlCheck (!g.service_isolate_initialized)
    "FTL_CHECK(!g_service_isolate_initialized)"
  pure { g with service_isolate_hook := hook }

/-- `SetRegisterNativeServiceProtocolExtensionHook` (lines 505-509). -/
def SetRegisterNativeServiceProtocolExtensionHook (g : DartInitGlobals)
    (hook : Hook) : Except String DartInitGlobals := do
  ftlCheck (!g.service_isolate_initialized)
    "CHECK(!g_service_isolate_initialized)"
  pure { g with register_native_service_protocol_extensions_hook := hook }

/-! ## Isolate factory (`IsolateCreateCallback`, lines 225-289) -/

/-- `DART_VM_SERVICE_ISOLATE_NAME`, the reserved service-isolate name.
It comes from the VM's public header, not from this file; none of the
claims depend on its exact text, only on its being a fixed name that does
not carry the file-URI scheme. -/
def DART_VM_SERVICE_ISOLATE_NAME : String := "vm-service"

/-- `kSnapshotAssetKey` (line 74). -/
def kSnapshotAssetKey : String := "snapshot_blob.bin"

/-- `IsServiceIsolateURL` (lines 167-170): a null pointer is `none`. -/
def IsServiceIsolateURL (url_name : Option String) : Bool :=
  match url_name with
  | none => false
  | some url => decide (url = DART_VM_SERVICE_ISOLATE_NAME)

/-- The externally observable actions the isolate-creation callback can
take on its generic (non-service) path. -/
inductive FactoryEvent
  /-- The `FTL_CHECK(base::StartsWith(script_uri, kFileUriPrefix, ...))`
  scheme test (line 240). -/
  | schemeCheck
  /-- `zip_asset_bundle->GetAsBuffer(kSnapshotAssetKey, ...)` (line 245). -/
  | assetExtract
  /-- `Dart_LoadScriptFromSnapshot` (line 278). -/
  | loadSnapshot
  /-- `Dart_IsolateMakeRunnable` (line 287). -/
  | makeRunnable
  deriving Repr, DecidableEq

/-- The result of the callback: either the process aborts on a fatal
check, or a handle (the VM's `Dart_Isolate`, possibly null) is returned
to the VM. -/
inductive IsoOutcome
  | fatal (msg : String)
  | handle (isolate : Option Nat)
  deriving Repr, DecidableEq

/-- The collaborators `IsolateCreateCallback` drives, as pure functions:
the execution mode, the service-isolate creation path it may delegate to,
the asset bundle (keyed by bundle path, for the fixed
`kSnapshotAssetKey`), `Dart_CreateIsolate`, and the success of the
remaining VM calls. -/
structure IsolateEnv where
  precompiled : Bool
  serviceCreate : String → IsoOutcome
  getAsBuffer : String → Option (List Nat)
  createIsolate : String → Option Nat
  setLibraryTagHandlerFails : Bool
  loadSnapshotFails : Bool
  makeRunnableOk : Bool

/-- Lines 248-288 of `IsolateCreateCallback`: everything after
`snapshot_data` has been settled — create the isolate (fatal if null),
set the library tag handler, load the snapshot into the isolate only when
the buffer is non-empty, and mark the isolate runnable.  `evs` are the
events already performed while obtaining `snapshot_data`. -/
def finishIsolateCreate (env : IsolateEnv) (script_uri : String)
    (snapshot_data : List Nat) (evs : List FactoryEvent) :
    IsoOutcome × List FactoryEvent :=
  match env.createIsolate script_uri with
  | none => (IsoOutcome.fatal "FTL_CHECK(isolate)", evs)
  | some isolate =>
    if env.setLibraryTagHandlerFails then
      (IsoOutcome.fatal
        "FTL_CHECK(!LogIfError(Dart_SetLibraryTagHandler(DartLibraryTagHandler)))",
       evs)
    else if snapshot_data.isEmpty then
      if env.makeRunnableOk then
        (IsoOutcome.handle (some isolate), evs ++ [FactoryEvent.makeRunnable])
      else
        (IsoOutcome.fatal "FTL_CHECK(Dart_IsolateMakeRunnable(isolate))",
         evs ++ [FactoryEvent.makeRunnable])
    else if env.loadSnapshotFails then
      (IsoOutcome.fatal
        "FTL_CHECK(!LogIfError(Dart_LoadScriptFromSnapshot(...)))",
       evs ++ [FactoryEvent.loadSnapshot])
    else if env.makeRunnableOk then
      (IsoOutcome.handle (some isolate),
       evs ++ [FactoryEvent.loadSnapshot, FactoryEvent.makeRunnable])
    else
      (IsoOutcome.fatal "FTL_CHECK(Dart_IsolateMakeRunnable(isolate))",
       evs ++ [FactoryEvent.loadSnapshot, FactoryEvent.makeRunnable])

/-- `IsolateCreateCallback` (lines 225-289).  A service-isolate URL
delegates wholesale to `ServiceIsolateCreateCallback` (modelled by
`env.serviceCreate`); otherwise, in snapshot mode the URI must carry the
file scheme and the snapshot asset is extracted from the bundle at the
stripped path (`script_uri.drop 7` strips `"file://"`), while in
precompiled mode `snapshot_data` stays empty. -/
def IsolateCreateCallback (env : IsolateEnv) (script_uri : String) :
    IsoOutcome × List FactoryEvent :=
  if IsServiceIsolateURL (some script_uri) then
    (env.serviceCreate script_uri, [])
  else if env.precompiled then
    finishIsolateCreate env script_uri [] []
  else if StartsWithASCII script_uri kFileUriScheme then
    match env.getAsBuffer (script_uri.drop 7) with
    | some snapshot_data =>
        finishIsolateCreate env script_uri snapshot_data
          [FactoryEvent.schemeCheck, FactoryEvent.assetExtract]
    | none =>
        (IsoOutcome.fatal
          "FTL_CHECK(zip_asset_bundle->GetAsBuffer(kSnapshotAssetKey, &snapshot_data))",
         [FactoryEvent.schemeCheck, FactoryEvent.assetExtract])
  else
    (IsoOutcome.fatal
      "FTL_CHECK(base::StartsWith(script_uri, kFileUriPrefix, base::CompareCase::SENSITIVE))",
     [FactoryEvent.schemeCheck])

/-! ## Snapshot/symbol resolver — well-known symbol names (lines 335-338) -/

def kDartVmIsolateSnapshotBufferName : String := "kDartVmIsolateSnapshotBuffer"

def kDartIsolateSnapshotBufferName : String := "kDartIsolateSnapshotBuffer"

def kInstructionsSnapshotName : String := "kInstructionsSnapshot"

def kDataSnapshotName : String := "kDataSnapshot"

end DartInit

namespace DartInit.AndroidResolver

/-! ## Asset-mapping resolver strategy (`OS(ANDROID)`, lines 379-434) -/

/-- `struct SymbolAsset` (lines 382-387): one entry of the symbol asset
cache.  `mapping` is the cached `void*`, `none` for null (the
zero-initialized state and the stored result of a failed `mmap`). -/
structure SymbolAsset where
  symbol_name : String
  file_name : String
  is_executable : Bool
  mapping : Option Nat
  deriving Repr, DecidableEq

/-- The initial contents of `g_symbol_assets` (lines 389-394); the
`mapping` fields are zero-initialized. -/
def g_symbol_assets : List SymbolAsset :=
  [⟨kDartVmIsolateSnapshotBufferName, "snapshot_aot_vmisolate", false, none⟩,
   ⟨kDartIsolateSnapshotBufferName, "snapshot_aot_isolate", false, none⟩,
   ⟨kInstructionsSnapshotName, "snapshot_aot_instr", true, none⟩,
   ⟨kDataSnapshotName, "snapshot_aot_rodata", false, none⟩]

/-- The file I/O a lookup can perform (lines 412-428). -/
inductive FileIOEvent
  /-- `base::GetFileSize` (line 413). -/
  | getFileSize
  /-- `::open` (line 416). -/
  | openFile
  /-- `::mmap` (line 425). -/
  | mmap
  deriving Repr, DecidableEq

/-- The host side of the lookup: the configured snapshot directory
(`SkySettings::Get().aot_snapshot_path`) and the file system.
`getFileSize` is `none` on failure, `mmapResult` (keyed by path and the
executable flag) is `none` for `MAP_FAILED`. -/
structure FileIOEnv where
  aot_snapshot_path : String
  getFileSize : String → Option Int
  openOk : String → Bool
  mmapResult : String → Bool → Option Nat

/-- The loop body of `_DartSymbolLookup` (lines 399-431) over the symbol
asset list: returns the looked-up pointer, the updated asset list, and
the file I/O performed, or aborts on the fatal
`FTL_CHECK(!aot_snapshot_path.empty())`.  `base::FilePath::Append` joins
with a path separator. -/
def lookupLoop (env : FileIOEnv) (symbol_name : String) :
    List SymbolAsset →
    Except String (Option Nat × List SymbolAsset × List FileIOEvent)
  | [] => Except.ok (none, [], [])
  | a :: rest =>
    if symbol_name = a.symbol_name then
      match a.mapping with
      | some p => Except.ok (some p, a :: rest, [])
      | none =>
        if env.aot_snapshot_path = "" then
          Except.error "FTL_CHECK(!aot_snapshot_path.empty())"
        else
          let asset_path := env.aot_snapshot_path ++ "/" ++ a.file_name
          match env.getFileSize asset_path with
          | none => Except.ok (none, a :: rest, [FileIOEvent.getFileSize])
          | some _ =>
            if env.openOk asset_path then
              let symbol := env.mmapResult asset_path a.is_executable
              Except.ok (symbol, { a with mapping := symbol } :: rest,
                [FileIOEvent.getFileSize, FileIOEvent.openFile,
                 FileIOEvent.mmap])
            else
              Except.ok (none, a :: rest,
                [FileIOEvent.getFileSize, FileIOEvent.openFile])
    else
      match lookupLoop env symbol_name rest with
      | Except.error e => Except.error e
      | Except.ok (r, rest2, evs) => Except.ok (r, a :: rest2, evs)

/-- `_DartSymbolLookup` for the asset-mapping strategy (lines 398-434),
with the mutable `g_symbol_assets` array passed (and returned) as
explicit state. -/
def _DartSymbolLookup (env : FileIOEnv) (assets : List SymbolAsset)
    (symbol_name : String) :
    Except String (Option Nat × List SymbolAsset × List FileIOEvent) :=
  lookupLoop env symbol_name assets

end DartInit.AndroidResolver

namespace DartInit.IOSResolver

/-! ## Dynamic-library resolver strategy (`OS(IOS)`, lines 340-377) -/

/-- `kDartApplicationLibraryPath` (line 342). -/
def kDartApplicationLibraryPath : String := "app.dylib"

/-- The dynamic loader: whether `dlopen` of a library path (`none` is the
null path, i.e. the default/global namespace handle) succeeds without a
pending `dlerror`, and what `dlsym` resolves in it (`none` when `dlerror`
reports the symbol absent). -/
structure DlEnv where
  dlopenOk : Option String → Bool
  dlsym : Option String → String → Option Nat

/-- `DartLookupSymbolInLibrary` (lines 344-357): null symbol name or a
failed `dlopen` yield null; otherwise the `dlsym` result (null when the
symbol is absent). -/
def DartLookupSymbolInLibrary (env : DlEnv) (symbol_name : Option String)
    (lib : Option String) : Option Nat :=
  match symbol_name with
  | none => none
  | some name =>
    if env.dlopenOk lib then
      env.dlsym lib name
    else
      none

/-- `_DartSymbolLookup` for the dynamic-library strategy (lines 359-377):
the application-bundled library first, the default namespace as
fallback.  Total — every failure path returns null, never an abort. -/
def _DartSymbolLookup (env : DlEnv) (symbol_name : Option String) :
    Option Nat :=
  match symbol_name with
  | none => none
  | some name =>
    match DartLookupSymbolInLibrary env (some name)
        (some kDartApplicationLibraryPath) with
    | some symbol => some symbol
    | none => DartLookupSymbolInLibrary env (some name) none

end DartInit.IOSResolver

deriving instance DecidableEq for Except

namespace DartInit

/-! ## Theorems for the flag composer claims -/

/-- **C1.** For every combination of host settings, execution mode, and
user-supplied flag string, the flag vector composed by VM initialization
has the ignore-unrecognized-flags directive as its first element, followed
in fixed order by the profiling defaults, the mirrors-disabling directive,
the background-compilation defaults, then the precompilation flags iff the
execution mode is precompiled, the checked-mode flags iff the checked-mode
policy holds, the start-paused flag iff the host settings request it, the
startup-tracing flags iff the host settings request them, and finally the
user-supplied flags split on whitespace, appended last. -/
theorem initDartVMArgs_order (isIOSOrMacOS precompiled strict : Bool)
    (settings : SkySettings) (dartFlagsSwitch : Option String) :
    (initDartVMArgs isIOSOrMacOS precompiled strict settings
        dartFlagsSwitch).head? = some "--ignore-unrecognized-flags" ∧
    initDartVMArgs isIOSOrMacOS precompiled strict settings dartFlagsSwitch =
      ["--ignore-unrecognized-flags"]
        ++ kDartProfilingArgs isIOSOrMacOS
        ++ kDartMirrorsArgs
        ++ kDartBackgroundCompilationArgs
        ++ (if precompiled then kDartPrecompilationArgs else [])
        ++ (if ShouldEnableCheckedMode precompiled strict settings then
              kDartCheckedModeArgs
            else [])
        ++ (if settings.start_paused then kDartStartPausedArgs else [])
        ++ (if settings.trace_startup then kDartTraceStartupArgs else [])
        ++ dartFlagsOf dartFlagsSwitch := by
  have heq : initDartVMArgs isIOSOrMacOS precompiled strict settings
      dartFlagsSwitch =
      ["--ignore-unrecognized-flags"]
        ++ kDartProfilingArgs isIOSOrMacOS
        ++ kDartMirrorsArgs
        ++ kDartBackgroundCompilationArgs
        ++ (if precompiled then kDartPrecompilationArgs else [])
        ++ (if ShouldEnableCheckedMode precompiled strict settings then
              kDartCheckedModeArgs
            else [])
        ++ (if settings.start_paused then kDartStartPausedArgs else [])
        ++ (if settings.trace_startup then kDartTraceStartupArgs else [])
        ++ dartFlagsOf dartFlagsSwitch := by
    cases precompiled <;>
      by_cases hc : ShouldEnableCheckedMode false strict settings <;>
      by_cases hc' : ShouldEnableCheckedMode true strict settings <;>
      by_cases hs : settings.start_paused <;>
      by_cases ht : settings.trace_startup <;>
      simp [initDartVMArgs, hc, hc', hs, ht]
  refine ⟨?_, heq⟩
  rw [heq]
  rfl

/-- **C2.** Provided the user-supplied flag string does not itself smuggle
in one of the four checked-mode flag strings, the checked-mode flags are
present in the composed flag vector iff the execution mode is not
precompiled and (the build-time strict flag is set or the host settings
enable checked mode); in particular, whenever the execution mode is
precompiled, the checked-mode flags are absent for every setting
combination. -/
theorem checkedModeFlags_presence (isIOSOrMacOS precompiled strict : Bool)
    (settings : SkySettings) (dartFlagsSwitch : Option String)
    (huser : ∀ f ∈ kDartCheckedModeArgs, f ∉ dartFlagsOf dartFlagsSwitch) :
    ((∀ f ∈ kDartCheckedModeArgs,
        f ∈ initDartVMArgs isIOSOrMacOS precompiled strict settings
          dartFlagsSwitch) ↔
      (precompiled = false ∧
        (strict = true ∨ settings.enable_dart_checked_mode = true))) ∧
    (precompiled = true →
      ∀ f ∈ kDartCheckedModeArgs,
        f ∉ initDartVMArgs isIOSOrMacOS precompiled strict settings
          dartFlagsSwitch) := by
  have hmem : ∀ f ∈ kDartCheckedModeArgs,
      (f ∈ initDartVMArgs isIOSOrMacOS precompiled strict settings
          dartFlagsSwitch ↔
        ShouldEnableCheckedMode precompiled strict settings = true) := by
    intro f hf
    rw [(initDartVMArgs_order isIOSOrMacOS precompiled strict settings
      dartFlagsSwitch).2]
    have huf := huser f hf
    fin_cases hf <;>
      by_cases hc : ShouldEnableCheckedMode precompiled strict settings <;>
      simp_all [kDartProfilingArgs, kDartMirrorsArgs,
        kDartBackgroundCompilationArgs, kDartPrecompilationArgs,
        kDartCheckedModeArgs, kDartStartPausedArgs, kDartTraceStartupArgs]
  have hpolicy : ShouldEnableCheckedMode precompiled strict settings = true ↔
      (precompiled = false ∧
        (strict = true ∨ settings.enable_dart_checked_mode = true)) := by
    cases precompiled <;> cases strict <;> simp [ShouldEnableCheckedMode]
  constructor
  · constructor
    · intro h
      have := (hmem "--enable_asserts" (by simp [kDartCheckedModeArgs])).1
        (h "--enable_asserts" (by simp [kDartCheckedModeArgs]))
      exact hpolicy.1 this
    · intro h f hf
      exact (hmem f hf).2 (hpolicy.2 h)
  · intro hp f hf hin
    have := hpolicy.1 ((hmem f hf).1 hin)
    rw [hp] at this
    exact absurd this.1 (by simp)

/-- Witness for `checkedModeFlags_presence` at a concrete input: no
user-supplied flags, non-precompiled strict build with checked mode off in
the settings. -/
theorem checkedModeFlags_presence_witness :
    (∀ f ∈ kDartCheckedModeArgs, f ∉ dartFlagsOf none) ∧
    ((∀ f ∈ kDartCheckedModeArgs,
        f ∈ initDartVMArgs false false true
          ⟨false, false, false, false, ""⟩ none) ↔
      (false = false ∧ (true = true ∨ false = true))) := by
  refine ⟨by decide, ?_⟩
  exact (checkedModeFlags_presence false false true
    ⟨false, false, false, false, ""⟩ none (by decide)).1

/-! ## Theorems for the stream capture controller claim -/

/-- **C9.** For every stream id, the stream-capture enable operation
returns true and turns on capture iff the id is exactly "Stdout" or
"Stderr", and returns false with no change to either capture state
otherwise; the disable operation turns off capture for a matching id and
is a silent no-op, changing no capture state, for any unknown id. -/
theorem serviceStream_enable_disable (st : StreamCaptureState)
    (stream_id : String) :
    ((ServiceStreamListenCallback st stream_id).1 = true ↔
      stream_id = "Stdout" ∨ stream_id = "Stderr") ∧
    (stream_id = "Stdout" →
      ServiceStreamListenCallback st stream_id =
        (true, { st with captureStdout := true })) ∧
    (stream_id = "Stderr" →
      ServiceStreamListenCallback st stream_id =
        (true, { st with captureStderr := true })) ∧
    (stream_id ≠ "Stdout" → stream_id ≠ "Stderr" →
      ServiceStreamListenCallback st stream_id = (false, st)) ∧
    (ServiceStreamCancelCallback st "Stdout" =
      { st with captureStdout := false }) ∧
    (ServiceStreamCancelCallback st "Stderr" =
      { st with captureStderr := false }) ∧
    (stream_id ≠ "Stdout" → stream_id ≠ "Stderr" →
      ServiceStreamCancelCallback st stream_id = st) := by
  by_cases h1 : stream_id = "Stdout" <;>
    by_cases h2 : stream_id = "Stderr" <;>
    simp_all [ServiceStreamListenCallback, ServiceStreamCancelCallback,
      kStdoutStreamId, kStderrStreamId]

/-- Witness for `serviceStream_enable_disable`: an unknown id is rejected
by `enable` with no state change. -/
theorem serviceStream_enable_disable_witness :
    ServiceStreamListenCallback ⟨true, false⟩ "Unknown" =
      (false, ⟨true, false⟩) :=
  (serviceStream_enable_disable ⟨true, false⟩ "Unknown").2.2.2.1
    (by decide) (by decide)

/-! ## Theorems for the file-modification check claim -/

/-- **C7.** The file-modification check returns "modified" (true) for
every URL that does not carry a recognized local-file scheme and for every
local-file URL whose file cannot be stat'ed, and returns "not modified"
(false) for every file whose last-modification time is at or before the
given millisecond timestamp. -/
theorem dartFileModified_spec (env : FileSystemEnv) (source_url : String)
    (since_ms : Int) :
    (StartsWithASCII source_url "file:" = false →
      DartFileModifiedCallback env source_url since_ms = true) ∧
    (StartsWithASCII source_url "file:" = true →
      env.getFileInfo (source_url.drop 5) = none →
      DartFileModifiedCallback env source_url since_ms = true) ∧
    (∀ last_modified : Int,
      StartsWithASCII source_url "file:" = true →
      env.getFileInfo (source_url.drop 5) = some last_modified →
      last_modified ≤ since_ms →
      DartFileModifiedCallback env source_url since_ms = false) := by
  refine ⟨?_, ?_, ?_⟩
  · intro h
    simp [DartFileModifiedCallback, h]
  · intro hpre hinfo
    simp [DartFileModifiedCallback, hpre, hinfo]
  · intro last_modified hpre hinfo hle
    simp only [DartFileModifiedCallback, hpre, if_true, hinfo]
    generalize Int.tdiv since_ms 1000 = q
    simp only [decide_eq_false_iff_not, not_lt]
    omega

/-- Witness for `dartFileModified_spec`: a file last modified at 500 ms is
reported unmodified against a 1500 ms threshold. -/
theorem dartFileModified_spec_witness :
    DartFileModifiedCallback ⟨fun _ => some 500⟩ "file:/a.dart" 1500 =
      false :=
  (dartFileModified_spec ⟨fun _ => some 500⟩ "file:/a.dart" 1500).2.2
    500 (by decide) rfl (by decide)

/-! ## Theorems for the hook-registration claim -/

/-- **C4.** Every call to set the service-isolate hook or the
extension-registration hook made after the service-isolate-initialized
flag has been set is a fatal condition (the call aborts rather than being
silently ignored); a call made while the flag is still false succeeds and
stores the hook. -/
theorem hookRegistration_guard (g : DartInitGlobals) (hook : Hook) :
    (g.service_isolate_initialized = true →
      SetServiceIsolateHook g hook =
        Except.error "FTL_CHECK(!g_service_isolate_initialized)" ∧
      SetRegisterNativeServiceProtocolExtensionHook g hook =
        Except.error "CHECK(!g_service_isolate_initialized)") ∧
    (g.service_isolate_initialized = false →
      SetServiceIsolateHook g hook =
        Except.ok { g with service_isolate_hook := hook } ∧
      SetRegisterNativeServiceProtocolExtensionHook g hook =
        Except.ok
          { g with register_native_service_protocol_extensions_hook :=
              hook }) := by
  constructor
  · intro h
    constructor <;>
      simp [SetServiceIsolateHook,
        SetRegisterNativeServiceProtocolExtensionHook, ftlCheck, h,
        Except.error]
  · intro h
    constructor <;>
      simp [SetServiceIsolateHook,
        SetRegisterNativeServiceProtocolExtensionHook, ftlCheck, h]

/-- Witness for `hookRegistration_guard`: registration after the flag is
set aborts, registration before it succeeds. -/
theorem hookRegistration_guard_witness :
    (SetServiceIsolateHook ⟨true, none, none⟩ (some 7) =
      Except.error "FTL_CHECK(!g_service_isolate_initialized)") ∧
    (SetServiceIsolateHook ⟨false, none, none⟩ (some 7) =
      Except.ok ⟨false, some 7, none⟩) :=
  ⟨((hookRegistration_guard ⟨true, none, none⟩ (some 7)).1 rfl).1,
   ((hookRegistration_guard ⟨false, none, none⟩ (some 7)).2 rfl).1⟩

/-! ## Theorems for the isolate factory claims -/

/-- A URI carrying the file scheme cannot be the reserved service-isolate
name, which does not start with `"file://"`. -/
theorem not_serviceURL_of_fileScheme {script_uri : String}
    (h : StartsWithASCII script_uri kFileUriScheme = true) :
    IsServiceIsolateURL (some script_uri) = false := by
  unfold IsServiceIsolateURL
  by_cases he : script_uri = DART_VM_SERVICE_ISOLATE_NAME
  · subst he
    exact absurd h (by decide)
  · simp [he]

/-- **C3.** For every requested URI equal to the reserved service-isolate
name, the isolate-creation callback delegates entirely to the
service-isolate creation path and returns its result, and never reaches
the generic path that checks the file-URI scheme or extracts the snapshot
asset from the bundle. -/
theorem serviceIsolate_routing (env : IsolateEnv) (script_uri : String)
    (h : IsServiceIsolateURL (some script_uri) = true) :
    IsolateCreateCallback env script_uri =
      (env.serviceCreate script_uri, []) ∧
    FactoryEvent.schemeCheck ∉ (IsolateCreateCallback env script_uri).2 ∧
    FactoryEvent.assetExtract ∉ (IsolateCreateCallback env script_uri).2 := by
  refine ⟨?_, ?_, ?_⟩ <;> simp [IsolateCreateCallback, h]

/-- Witness for `serviceIsolate_routing` at the concrete reserved name. -/
theorem serviceIsolate_routing_witness :
    IsolateCreateCallback
      ⟨false, fun _ => IsoOutcome.handle (some 1), fun _ => none,
        fun _ => none, false, false, true⟩
      "vm-service" = (IsoOutcome.handle (some 1), []) :=
  (serviceIsolate_routing
    ⟨false, fun _ => IsoOutcome.handle (some 1), fun _ => none,
      fun _ => none, false, false, true⟩
    "vm-service" (by decide)).1

/-- **C10.** In snapshot (non-precompiled) mode, when the asset-bundle
extraction of the snapshot asset succeeds, the isolate-creation callback
loads the snapshot into the isolate iff the extracted buffer is
non-empty; in particular, on an empty buffer it silently skips the
load-script-from-snapshot step and still completes isolate creation,
marking the isolate runnable. -/
theorem emptySnapshot_skips_load (env : IsolateEnv) (script_uri : String)
    (snapshot_data : List Nat) (isolate : Nat)
    (hpre : env.precompiled = false)
    (hscheme : StartsWithASCII script_uri kFileUriScheme = true)
    (hbuf : env.getAsBuffer (script_uri.drop 7) = some snapshot_data)
    (hcreate : env.createIsolate script_uri = some isolate)
    (htag : env.setLibraryTagHandlerFails = false)
    (hload : env.loadSnapshotFails = false)
    (hrun : env.makeRunnableOk = true) :
    IsolateCreateCallback env script_uri =
      (IsoOutcome.handle (some isolate),
       [FactoryEvent.schemeCheck, FactoryEvent.assetExtract] ++
         (if snapshot_data.isEmpty then [] else [FactoryEvent.loadSnapshot])
         ++ [FactoryEvent.makeRunnable]) := by
  have hns := not_serviceURL_of_fileScheme hscheme
  by_cases hd : snapshot_data.isEmpty <;>
    simp [IsolateCreateCallback, hns, hpre, hscheme, hbuf,
      finishIsolateCreate, hcreate, htag, hload, hrun, hd]

/-- Witness for `emptySnapshot_skips_load`: an empty extracted buffer
still yields a runnable isolate, with no snapshot load performed. -/
theorem emptySnapshot_skips_load_witness :
    IsolateCreateCallback
      ⟨false, fun _ => IsoOutcome.fatal "unused", fun _ => some [],
        fun _ => some 5, false, false, true⟩
      "file:///bundle.flx" =
      (IsoOutcome.handle (some 5),
       [FactoryEvent.schemeCheck, FactoryEvent.assetExtract,
        FactoryEvent.makeRunnable]) :=
  emptySnapshot_skips_load
    ⟨false, fun _ => IsoOutcome.fatal "unused", fun _ => some [],
      fun _ => some 5, false, false, true⟩
    "file:///bundle.flx" [] 5 rfl (by decide) rfl rfl rfl rfl rfl

namespace AndroidResolver

/-! ## Helper lemmas for the asset-mapping resolver -/

/-- A name matching no entry of the asset list is answered `null` with the
list unchanged and no file I/O. -/
theorem lookupLoop_not_found (env : FileIOEnv) (symbol_name : String) :
    ∀ assets : List SymbolAsset,
      (∀ a ∈ assets, symbol_name ≠ a.symbol_name) →
      lookupLoop env symbol_name assets = Except.ok (none, assets, []) := by
  intro assets
  induction assets with
  | nil => intro _; rfl
  | cons a rest ih =>
    intro h
    have hna : symbol_name ≠ a.symbol_name := h a (by simp)
    have hrest := ih (fun b hb => h b (by simp [hb]))
    simp [lookupLoop, hna, hrest]

/-- Once a lookup has produced a non-null pointer, looking the name up
again in the returned state is a cache hit: the identical pointer comes
back, the state is unchanged, and no file I/O happens. -/
theorem lookupLoop_cached (env : FileIOEnv) (symbol_name : String) :
    ∀ (assets : List SymbolAsset) (p : Nat) (s2 : List SymbolAsset)
      (evs : List FileIOEvent),
      lookupLoop env symbol_name assets = Except.ok (some p, s2, evs) →
      lookupLoop env symbol_name s2 = Except.ok (some p, s2, []) := by
  intro assets
  induction assets with
  | nil =>
    intro p s2 evs h
    simp [lookupLoop] at h
  | cons a rest ih =>
    intro p s2 evs h
    by_cases hname : symbol_name = a.symbol_name
    · cases hmap : a.mapping with
      | some q =>
        simp [lookupLoop, hname, hmap] at h
        obtain ⟨h1, h2, h3⟩ := h
        subst h1
        subst h2
        simp [lookupLoop, hname, hmap]
      | none =>
        by_cases hempty : env.aot_snapshot_path = ""
        · simp [lookupLoop, hname, hmap, hempty] at h
        · cases hsz : env.getFileSize
              (env.aot_snapshot_path ++ "/" ++ a.file_name) with
          | none =>
            simp [lookupLoop, hname, hmap, hempty, hsz] at h
          | some sz =>
            by_cases hopen :
                env.openOk (env.aot_snapshot_path ++ "/" ++ a.file_name)
            · cases hsym : env.mmapResult
                  (env.aot_snapshot_path ++ "/" ++ a.file_name)
                  a.is_executable with
              | some q =>
                simp [lookupLoop, hname, hmap, hempty, hsz, hopen, hsym] at h
                obtain ⟨h1, h2, h3⟩ := h
                subst h1
                subst h2
                simp [lookupLoop, hname]
              | none =>
                simp [lookupLoop, hname, hmap, hempty, hsz, hopen, hsym] at h
            · simp [lookupLoop, hname, hmap, hempty, hsz, hopen] at h
    · rcases hrest : lookupLoop env symbol_name rest with e | ⟨r, rest2, evs2⟩
      · simp [lookupLoop, hname, hrest] at h
      · simp [lookupLoop, hname, hrest] at h
        obtain ⟨h1, h2, h3⟩ := h
        subst h1
        subst h2
        have h4 := ih p rest2 evs2 hrest
        simp [lookupLoop, hname, h4]

/-- One lookup settles the state: looking the same name up again returns
the same pointer on the same state (with possibly repeated file I/O). -/
theorem lookupLoop_stable (env : FileIOEnv) (symbol_name : String) :
    ∀ (assets : List SymbolAsset) (r : Option Nat)
      (s2 : List SymbolAsset) (evs : List FileIOEvent),
      lookupLoop env symbol_name assets = Except.ok (r, s2, evs) →
      ∃ evs2, lookupLoop env symbol_name s2 = Except.ok (r, s2, evs2) := by
  intro assets
  induction assets with
  | nil =>
    intro r s2 evs h
    simp [lookupLoop] at h
    obtain ⟨h1, h2, h3⟩ := h
    subst h1
    subst h2
    exact ⟨[], rfl⟩
  | cons a rest ih =>
    intro r s2 evs h
    by_cases hname : symbol_name = a.symbol_name
    · cases hmap : a.mapping with
      | some q =>
        simp [lookupLoop, hname, hmap] at h
        obtain ⟨h1, h2, h3⟩ := h
        subst h1
        subst h2
        exact ⟨[], by simp [lookupLoop, hname, hmap]⟩
      | none =>
        by_cases hempty : env.aot_snapshot_path = ""
        · simp [lookupLoop, hname, hmap, hempty] at h
        · cases hsz : env.getFileSize
              (env.aot_snapshot_path ++ "/" ++ a.file_name) with
          | none =>
            simp [lookupLoop, hname, hmap, hempty, hsz] at h
            obtain ⟨h1, h2, h3⟩ := h
            subst h1
            subst h2
            exact ⟨[FileIOEvent.getFileSize],
              by simp [lookupLoop, hname, hmap, hempty, hsz]⟩
          | some sz =>
            by_cases hopen :
                env.openOk (env.aot_snapshot_path ++ "/" ++ a.file_name)
            · cases hsym : env.mmapResult
                  (env.aot_snapshot_path ++ "/" ++ a.file_name)
                  a.is_executable with
              | some p =>
                simp [lookupLoop, hname, hmap, hempty, hsz, hopen, hsym] at h
                obtain ⟨h1, h2, h3⟩ := h
                subst h1
                subst h2
                exact ⟨[], by simp [lookupLoop, hname]⟩
              | none =>
                have ha : { a with mapping := (none : Option Nat) } = a := by
                  rw [← hmap]
                simp [lookupLoop, hname, hmap, hempty, hsz, hopen, hsym,
                  ha] at h
                obtain ⟨h1, h2, h3⟩ := h
                subst h1
                subst h2
                exact ⟨[FileIOEvent.getFileSize, FileIOEvent.openFile,
                  FileIOEvent.mmap],
                  by simp [lookupLoop, hname, hmap, hempty, hsz, hopen,
                    hsym, ha]⟩
            · simp [lookupLoop, hname, hmap, hempty, hsz, hopen] at h
              obtain ⟨h1, h2, h3⟩ := h
              subst h1
              subst h2
              exact ⟨[FileIOEvent.getFileSize, FileIOEvent.openFile],
                by simp [lookupLoop, hname, hmap, hempty, hsz, hopen]⟩
    · rcases hrest : lookupLoop env symbol_name rest with e | ⟨r2, rest2, evs2⟩
      · simp [lookupLoop, hname, hrest] at h
      · simp [lookupLoop, hname, hrest] at h
        obtain ⟨h1, h2, h3⟩ := h
        subst h1
        subst h2
        obtain ⟨evs3, h4⟩ := ih r2 rest2 evs2 hrest
        exact ⟨evs3, by simp [lookupLoop, hname, h4]⟩

end AndroidResolver

namespace AndroidResolver

/-! ## Theorems for the asset-mapping resolver claims -/

/-- **C5, counterexample.**  The claim says a cache miss "obtains the
asset's size, opens it, memory-maps it, stores the resulting pointer — or
null on any I/O failure — into the cache entry … consequently a
subsequent lookup for the same name returns the cached result without
repeating the file I/O."  At this concrete input (a registered name,
pristine cache, a file system whose size query fails) the miss performs
only the size query — it never opens, maps, or stores anything: the
returned asset list is the unchanged `g_symbol_assets`, every `mapping`
still null — so the subsequent lookup is the very same call on the very
same state and repeats the file I/O (its event list again contains
`getFileSize` and is not empty) instead of answering from the cache. -/
theorem assetMapping_claim_counterexample :
    _DartSymbolLookup
        ⟨"/data/app", fun _ => none, fun _ => true, fun _ _ => some 42⟩
        g_symbol_assets kDartVmIsolateSnapshotBufferName =
      Except.ok (none, g_symbol_assets, [FileIOEvent.getFileSize]) ∧
    ([FileIOEvent.getFileSize] : List FileIOEvent) ≠ [] := by
  constructor
  · decide
  · decide

/-- **C5 (amended).**  In the asset-mapping resolver strategy, when a
lookup for a registered symbol name misses the cache (under a configured
snapshot directory): if the size query fails it returns null without
storing anything and without opening the file; if the open fails it
returns null without storing anything; only when both succeed does it
memory-map the asset and store the mmap result (null on mmap failure)
into the cache entry and return it.  A subsequent lookup for the same
name returns the cached result without repeating the file I/O exactly
when a lookup produced a non-null pointer. -/
theorem assetMapping_lookup_behaviour (env : FileIOEnv) :
    (∀ (assets s2 : List SymbolAsset) (symbol_name : String) (p : Nat)
        (evs : List FileIOEvent),
      _DartSymbolLookup env assets symbol_name =
        Except.ok (some p, s2, evs) →
      _DartSymbolLookup env s2 symbol_name = Except.ok (some p, s2, [])) ∧
    (∀ (a : SymbolAsset) (rest : List SymbolAsset),
      a.mapping = none →
      env.aot_snapshot_path ≠ "" →
      (env.getFileSize (env.aot_snapshot_path ++ "/" ++ a.file_name) =
          none →
        _DartSymbolLookup env (a :: rest) a.symbol_name =
          Except.ok (none, a :: rest, [FileIOEvent.getFileSize])) ∧
      (∀ sz : Int,
        env.getFileSize (env.aot_snapshot_path ++ "/" ++ a.file_name) =
          some sz →
        env.openOk (env.aot_snapshot_path ++ "/" ++ a.file_name) = false →
        _DartSymbolLookup env (a :: rest) a.symbol_name =
          Except.ok (none, a :: rest,
            [FileIOEvent.getFileSize, FileIOEvent.openFile])) ∧
      (∀ sz : Int,
        env.getFileSize (env.aot_snapshot_path ++ "/" ++ a.file_name) =
          some sz →
        env.openOk (env.aot_snapshot_path ++ "/" ++ a.file_name) = true →
        _DartSymbolLookup env (a :: rest) a.symbol_name =
          Except.ok
            (env.mmapResult (env.aot_snapshot_path ++ "/" ++ a.file_name)
              a.is_executable,
             { a with mapping := env.mmapResult (env.aot_snapshot_path ++ "/" ++ a.file_name) a.is_executable } :: rest,
             [FileIOEvent.getFileSize, FileIOEvent.openFile,
              FileIOEvent.mmap]))) := by
  constructor
  · intro assets s2 symbol_name p evs h
    exact lookupLoop_cached env symbol_name assets p s2 evs h
  · intro a rest hmap hempty
    refine ⟨?_, ?_, ?_⟩
    · intro hsz
      simp [_DartSymbolLookup, lookupLoop, hmap, hempty, hsz]
    · intro sz hsz hopen
      simp [_DartSymbolLookup, lookupLoop, hmap, hempty, hsz, hopen]
    · intro sz hsz hopen
      simp [_DartSymbolLookup, lookupLoop, hmap, hempty, hsz, hopen]

/-- Witness for `assetMapping_lookup_behaviour`: after a successful
mapping of the VM-isolate snapshot buffer, the second lookup is a cache
hit returning the identical pointer with no file I/O. -/
theorem assetMapping_lookup_behaviour_witness :
    _DartSymbolLookup
        ⟨"/data/app", fun _ => some 16, fun _ => true, fun _ _ => some 42⟩
        [⟨kDartVmIsolateSnapshotBufferName, "snapshot_aot_vmisolate",
            false, some 42⟩,
         ⟨kDartIsolateSnapshotBufferName, "snapshot_aot_isolate",
            false, none⟩,
         ⟨kInstructionsSnapshotName, "snapshot_aot_instr", true, none⟩,
         ⟨kDataSnapshotName, "snapshot_aot_rodata", false, none⟩]
        kDartVmIsolateSnapshotBufferName =
      Except.ok (some 42,
        [⟨kDartVmIsolateSnapshotBufferName, "snapshot_aot_vmisolate",
            false, some 42⟩,
         ⟨kDartIsolateSnapshotBufferName, "snapshot_aot_isolate",
            false, none⟩,
         ⟨kInstructionsSnapshotName, "snapshot_aot_instr", true, none⟩,
         ⟨kDataSnapshotName, "snapshot_aot_rodata", false, none⟩], []) :=
  (assetMapping_lookup_behaviour
      ⟨"/data/app", fun _ => some 16, fun _ => true, fun _ _ => some 42⟩).1
    g_symbol_assets _ kDartVmIsolateSnapshotBufferName 42
    [FileIOEvent.getFileSize, FileIOEvent.openFile, FileIOEvent.mmap]
    (by decide)

/-- **C6.** For every symbol name, two sequential lookups in the symbol
asset cache return pointer-identical results (a cache hit always returns
the same pointer as the lookup that populated the entry), and a lookup
for a name not present in the symbol table returns null without
performing any file I/O. -/
theorem symbolCache_idempotent (env : FileIOEnv) :
    (∀ (assets : List SymbolAsset) (symbol_name : String) (r : Option Nat)
        (s2 : List SymbolAsset) (evs : List FileIOEvent),
      _DartSymbolLookup env assets symbol_name = Except.ok (r, s2, evs) →
      ∃ evs2, _DartSymbolLookup env s2 symbol_name =
        Except.ok (r, s2, evs2)) ∧
    (∀ (assets : List SymbolAsset) (symbol_name : String),
      (∀ a ∈ assets, symbol_name ≠ a.symbol_name) →
      _DartSymbolLookup env assets symbol_name =
        Except.ok (none, assets, [])) :=
  ⟨fun assets symbol_name r s2 evs h =>
      lookupLoop_stable env symbol_name assets r s2 evs h,
   fun assets symbol_name h => lookupLoop_not_found env symbol_name assets h⟩

/-- Witness for `symbolCache_idempotent`: a name outside the static
symbol table is answered null, with the cache untouched and no file I/O
events. -/
theorem symbolCache_idempotent_witness :
    _DartSymbolLookup
        ⟨"/data/app", fun _ => some 1, fun _ => true, fun _ _ => some 7⟩
        g_symbol_assets "kUnknownSymbol" =
      Except.ok (none, g_symbol_assets, []) :=
  (symbolCache_idempotent
      ⟨"/data/app", fun _ => some 1, fun _ => true, fun _ _ => some 7⟩).2
    g_symbol_assets "kUnknownSymbol" (by decide)

end AndroidResolver

namespace IOSResolver

/-! ## Theorems for the dynamic-library resolver claim -/

/-- **C8.** In the dynamic-library resolver strategy, every lookup first
attempts resolution against the fixed application-bundled library path
and returns that result when non-null (so when a symbol exists in both
the application library and the default namespace, the
application-library result is returned); only on failure does it fall
back to the default/global namespace, and failure of both attempts
yields null — the function is total, never an exception or abort. -/
theorem dynamicLibrary_precedence (env : DlEnv) (name : String) :
    (∀ p : Nat,
      DartLookupSymbolInLibrary env (some name)
          (some kDartApplicationLibraryPath) = some p →
      _DartSymbolLookup env (some name) = some p) ∧
    (DartLookupSymbolInLibrary env (some name)
        (some kDartApplicationLibraryPath) = none →
      _DartSymbolLookup env (some name) =
        DartLookupSymbolInLibrary env (some name) none) ∧
    (DartLookupSymbolInLibrary env (some name)
        (some kDartApplicationLibraryPath) = none →
      DartLookupSymbolInLibrary env (some name) none = none →
      _DartSymbolLookup env (some name) = none) := by
  refine ⟨?_, ?_, ?_⟩
  · intro p h
    simp [_DartSymbolLookup, h]
  · intro h
    simp [_DartSymbolLookup, h]
  · intro h1 h2
    simp [_DartSymbolLookup, h1, h2]

/-- Witness for `dynamicLibrary_precedence`: a symbol present in both the
application library (as pointer 1) and the default namespace (as
pointer 2) resolves to the application-library pointer 1. -/
theorem dynamicLibrary_precedence_witness :
    _DartSymbolLookup
        ⟨fun _ => true,
         fun lib _ => match lib with | some _ => some 1 | none => some 2⟩
        (some "kInstructionsSnapshot") = some 1 :=
  (dynamicLibrary_precedence
      ⟨fun _ => true,
       fun lib _ => match lib with | some _ => some 1 | none => some 2⟩
      "kInstructionsSnapshot").1 1 rfl

end IOSResolver

end DartInit
